import Mathlib

/-!
Shallow embedding of the admin dashboard page (src/app/admin/page.tsx) of the
crowd-stacks repository: the Clarity-JSON decoding helpers, the defensive
campaign decoder, the deadline presenter, the close-campaign transaction
submitter, the transaction-status polling loop, and the full-data refresh.
JavaScript numbers are modelled as `JSNum` (NaN or an exact rational; float
rounding is not modelled, the values in play are exact). JavaScript values
reachable from JSON responses are modelled as `JVal`, and a possibly
undefined JavaScript expression as `JSlot := Option JVal`.
-/

/-- A JSON-like JavaScript value (the shape of `cvToJSON` outputs). -/
inductive JVal where
  | null : JVal
  | bool (b : Bool) : JVal
  | num (q : ℚ) : JVal
  | str (s : String) : JVal
  | arr (elems : List JVal) : JVal
  | obj (fields : List (String × JVal)) : JVal

/-- A JavaScript expression result: `none` models `undefined`. -/
abbrev JSlot := Option JVal

/-- A JavaScript number: NaN or an exact rational. -/
inductive JSNum where
  | nan : JSNum
  | val (q : ℚ) : JSNum
deriving DecidableEq

/-- JavaScript property access `v[k]` on a value that is neither `null` nor
`undefined`: objects look the key up (missing key gives `undefined`),
primitives and arrays have none of the accessed keys here. -/
def getField (v : JVal) (k : String) : JSlot :=
  match v with
  | .obj l => l.lookup k
  | _ => none

/-- Optional chaining `x?.k`: `undefined`/`null` receivers short-circuit to
`undefined`, otherwise plain property access. -/
def optChain (x : JSlot) (k : String) : JSlot :=
  match x with
  | none => none
  | some .null => none
  | some v => getField v k

/-- Nullish coalescing `x ?? d`: `undefined` and `null` fall back to `d`. -/
def nullish (x : JSlot) (d : JVal) : JVal :=
  match x with
  | none => d
  | some .null => d
  | some v => v

/-- JavaScript truthiness of a (non-undefined) value. -/
def jsTruthy : JVal → Bool
  | .null => false
  | .bool b => b
  | .num q => decide (q ≠ 0)
  | .str s => decide (s ≠ "")
  | .arr _ => true
  | .obj _ => true

/-- Decimal digit run folded to a natural number. -/
def digitsVal (cs : List Char) : Nat :=
  cs.foldl (fun a c => a * 10 + (c.toNat - 48)) 0

/-- JavaScript `Number(string)`: trimmed empty string is `0`; an optional
sign followed by decimal digits with an optional fraction parses exactly;
other forms (hex, exponents, `Infinity`) give NaN here — `cvToJSON` only
produces plain decimal strings for the fields this page reads. -/
def strToNumber (s : String) : JSNum :=
  let t := s.trim
  if t = "" then JSNum.val 0
  else
    let sb : ℚ × List Char :=
      match t.toList with
      | '-' :: rest => (-1, rest)
      | '+' :: rest => (1, rest)
      | cs => (1, cs)
    let intPart := sb.2.takeWhile Char.isDigit
    let rest := sb.2.dropWhile Char.isDigit
    match rest with
    | [] => if intPart.isEmpty then JSNum.nan else JSNum.val (sb.1 * (digitsVal intPart : ℚ))
    | '.' :: frac =>
      if frac.all Char.isDigit && !(intPart.isEmpty && frac.isEmpty) then
        JSNum.val (sb.1 * ((digitsVal intPart : ℚ) + (digitsVal frac : ℚ) / (10 ^ frac.length)))
      else JSNum.nan
    | _ => JSNum.nan

/-- JavaScript `Number(v)` (ToNumber) on a non-undefined value. Nonempty
arrays are approximated by NaN (JS coerces them through their join; no array
ever reaches a numeric field of the decoded shapes). -/
def jsToNumber : JVal → JSNum
  | .null => JSNum.val 0
  | .bool b => JSNum.val (if b then 1 else 0)
  | .num q => JSNum.val q
  | .str s => strToNumber s
  | .arr [] => JSNum.val 0
  | .arr _ => JSNum.nan
  | .obj _ => JSNum.nan

/-- Rendering of a JavaScript number to a string; only NaN and integral
values occur at the call sites in this page (JS renders non-integral floats
as decimals, rendered here as a fraction, unreachable in this development). -/
def jsNumToString : JSNum → String
  | JSNum.nan => "NaN"
  | JSNum.val q => if q.den = 1 then toString q.num else toString q.num ++ "/" ++ toString q.den

/-- JavaScript `String(v)` (ToString) on a non-undefined value. Nonempty
arrays are approximated by the empty string (JS joins their elements; no
array reaches a string field of the decoded shapes). -/
def jsToString : JVal → String
  | .null => "null"
  | .bool b => cond b "true" "false"
  | .num q => jsNumToString (JSNum.val q)
  | .str s => s
  | .arr _ => ""
  | .obj _ => "[object Object]"

/-- JavaScript `+` on numbers. -/
def JSNum.add : JSNum → JSNum → JSNum
  | JSNum.val a, JSNum.val b => JSNum.val (a + b)
  | _, _ => JSNum.nan

/-- JavaScript `-` on numbers. -/
def JSNum.sub : JSNum → JSNum → JSNum
  | JSNum.val a, JSNum.val b => JSNum.val (a - b)
  | _, _ => JSNum.nan

/-- JavaScript `*` on numbers. -/
def JSNum.mul : JSNum → JSNum → JSNum
  | JSNum.val a, JSNum.val b => JSNum.val (a * b)
  | _, _ => JSNum.nan

/-- JavaScript division by a fixed nonzero constant (used with 1,000,000). -/
def JSNum.divConst (x : JSNum) (c : ℚ) : JSNum :=
  match x with
  | JSNum.val a => JSNum.val (a / c)
  | JSNum.nan => JSNum.nan

/-- JavaScript `<=` on numbers: false whenever an operand is NaN. -/
def JSNum.leB : JSNum → JSNum → Bool
  | JSNum.val a, JSNum.val b => decide (a ≤ b)
  | _, _ => false

/-- JavaScript `>` on numbers: false whenever an operand is NaN. -/
def JSNum.gtB : JSNum → JSNum → Bool
  | JSNum.val a, JSNum.val b => decide (b < a)
  | _, _ => false

/-- JavaScript `>=` on numbers: false whenever an operand is NaN. -/
def JSNum.geB : JSNum → JSNum → Bool
  | JSNum.val a, JSNum.val b => decide (b ≤ a)
  | _, _ => false

/-- JavaScript truthiness of a number: `0` and NaN are falsy. -/
def truthyNum : JSNum → Bool
  | JSNum.nan => false
  | JSNum.val q => decide (q ≠ 0)

/-- JavaScript `Math.round`: floor of the argument plus one half. -/
def jsRound : JSNum → JSNum
  | JSNum.nan => JSNum.nan
  | JSNum.val q => JSNum.val ((⌊q + 1/2⌋ : ℤ) : ℚ)

/-- JavaScript `Math.max(0, x)`: NaN propagates. -/
def jsMax0 : JSNum → JSNum
  | JSNum.nan => JSNum.nan
  | JSNum.val q => JSNum.val (max 0 q)

/-- The helper `const jNum = (cv) => Number(cv?.value ?? 0)` from the source. -/
def jNum (cv : JSlot) : JSNum :=
  jsToNumber (nullish (optChain cv "value") (JVal.num 0))

/-- The helper `const jStr = (cv) => String(cv?.value ?? "")` from the source. -/
def jStr (cv : JSlot) : String :=
  jsToString (nullish (optChain cv "value") (JVal.str ""))

/-- The helper `const jBool = (cv) => Boolean(cv?.value ?? false)` from the source. -/
def jBool (cv : JSlot) : Bool :=
  jsTruthy (nullish (optChain cv "value") (JVal.bool false))

/-- JavaScript `s || fallback` on a string: the empty string is the only
falsy string. -/
def jsOrStr (s fallback : String) : String :=
  if s = "" then fallback else s

/-- JavaScript `x || fallback` on a possibly undefined value. -/
def jsOrVal (x : JSlot) (fallback : JVal) : JVal :=
  match x with
  | none => fallback
  | some v => if jsTruthy v then v else fallback

/-- The decoded `Campaign` record of the page. The owner field keeps the raw
JavaScript value (the source assigns `d.owner?.value || ''` uncoerced). -/
structure Campaign where
  id : Nat
  title : String
  description : String
  goal : JSNum
  total : JSNum
  deadline : JSNum
  owner : JVal
  active : Bool
  successful : Bool
  withdrawn : Bool
  finalized : Bool

/-- The binding `const d = json?.value?.value ?? {}` from `parseCampaign`. -/
def dOf (json : JSlot) : JVal :=
  nullish (optChain (optChain json "value") "value") (JVal.obj [])

/-- The defensive campaign decoder `parseCampaign` of the source. The title
and description fallback string is the literal text of the single-quoted
template `Campaign $\x7bid\x7d` (single quotes do not interpolate in
JavaScript). -/
def parseCampaign (json : JSlot) (id : Nat) : Campaign :=
  let d := dOf json
  { id := id
    title := jsOrStr (jStr (getField d "title")) "Campaign $\x7bid\x7d"
    description := jsOrStr (jStr (getField d "description")) "Campaign $\x7bid\x7d"
    goal := (jNum (getField d "goal")).divConst 1000000
    total := (jNum (getField d "total")).divConst 1000000
    deadline := jNum (getField d "deadline")
    owner := jsOrVal (optChain (getField d "owner") "value") (JVal.str "")
    active := jBool (getField d "active")
    successful := jBool (getField d "successful")
    withdrawn := jBool (getField d "withdrawn")
    finalized := jBool (getField d "finalized") }

/-- Strict property access: JavaScript throws a TypeError when reading a
property of `undefined` or `null`. -/
def getPropE (x : JSlot) (k : String) : Except String JSlot :=
  match x with
  | none => Except.error "TypeError: cannot read properties of undefined"
  | some .null => Except.error "TypeError: cannot read properties of null"
  | some v => Except.ok (getField v k)

/-- Optional chaining never throws. -/
def optChainE (x : JSlot) (k : String) : Except String JSlot :=
  match x with
  | none => Except.ok none
  | some .null => Except.ok none
  | some v => Except.ok (getField v k)

/-- Sequencing of possibly-throwing JavaScript evaluation steps. -/
def bindE (x : Except String JSlot) (f : JSlot → Except String Campaign) :
    Except String Campaign :=
  match x with
  | Except.error e => Except.error e
  | Except.ok v => f v

/-- The decoder `parseCampaign` with every property access given its strict JavaScript
error semantics: `json?.value?.value` and `d.owner?.value` use optional
chaining, every access on `d` is a plain (throwing) access. -/
def parseCampaignE (json : JSlot) (id : Nat) : Except String Campaign :=
  bindE (optChainE json "value") fun v1 =>
  bindE (optChainE v1 "value") fun v2 =>
  let d := nullish v2 (JVal.obj [])
  bindE (getPropE (some d) "title") fun titleCV =>
  bindE (getPropE (some d) "description") fun descCV =>
  bindE (getPropE (some d) "goal") fun goalCV =>
  bindE (getPropE (some d) "total") fun totalCV =>
  bindE (getPropE (some d) "deadline") fun deadlineCV =>
  bindE (getPropE (some d) "owner") fun ownerCV =>
  bindE (optChainE ownerCV "value") fun ownerVal =>
  bindE (getPropE (some d) "active") fun activeCV =>
  bindE (getPropE (some d) "successful") fun successfulCV =>
  bindE (getPropE (some d) "withdrawn") fun withdrawnCV =>
  bindE (getPropE (some d) "finalized") fun finalizedCV =>
  Except.ok
    { id := id
      title := jsOrStr (jStr titleCV) "Campaign $\x7bid\x7d"
      description := jsOrStr (jStr descCV) "Campaign $\x7bid\x7d"
      goal := (jNum goalCV).divConst 1000000
      total := (jNum totalCV).divConst 1000000
      deadline := jNum deadlineCV
      owner := jsOrVal ownerVal (JVal.str "")
      active := jBool activeCV
      successful := jBool successfulCV
      withdrawn := jBool withdrawnCV
      finalized := jBool finalizedCV }

/-- The presenter `formatDeadlineDisplay` of the source. Dates are identified with their
epoch-milliseconds number; `toLocaleString` is an environment-supplied
renderer `toLocale`, and `Date.now()` is the parameter `now`. The dead
`catch` branch of the source (no modelled expression throws) is omitted. -/
def formatDeadlineDisplay (toLocale : JSNum → String) (now : JSNum)
    (deadline : JSNum) (currentBlockHeight : Option JSNum) : String :=
  if !(truthyNum deadline) || JSNum.leB deadline (JSNum.val 0) then "No deadline"
  else
    let unixThreshold : JSNum := JSNum.val 1000000000
    if JSNum.gtB deadline unixThreshold then
      toLocale (deadline.mul (JSNum.val 1000))
    else
      match currentBlockHeight with
      | some h =>
        if truthyNum h && JSNum.geB deadline h then
          let blocksRemaining := deadline.sub h
          let estMs := blocksRemaining.mul (JSNum.val (10 * 60 * 1000))
          toLocale (now.add estMs) ++ (" (est, block " ++ jsNumToString deadline ++ ")")
        else "Block #" ++ jsNumToString deadline
      | none => "Block #" ++ jsNumToString deadline

/-- Contract address constant of the source. -/
def CONTRACT_ADDRESS : String := "ST1RVN5QPTET1RV9BJQX35JQWJFYG8YNHQEY5QN24"

/-- Contract name constant of the source. -/
def CONTRACT_NAME : String := "crowdfunding"

/-- The session snapshot used by the page: `user.profile.stxAddress.testnet`. -/
structure UserData where
  address : String
deriving DecidableEq

/-- A spending guarantee built by `makeContractSTXPostCondition`. -/
structure PostCondition where
  contractAddress : String
  contractName : String
  conditionCode : String
  amount : String
deriving DecidableEq

/-- Observable outcome of `handleCloseCampaign` up to the contract call. -/
inductive CloseResult where
  | noWallet : CloseResult
  | notFound : CloseResult
  | notOwner : CloseResult
  | cancelled : CloseResult
  | submitted (functionName : String) (campaignId : Nat)
      (postConditions : List PostCondition) (postConditionMode : Option String) : CloseResult
deriving DecidableEq

/-- JavaScript strict equality between a decoded owner value and the session
address string: true exactly when the owner is that string. -/
def jsStrictEqStr (v : JVal) (s : String) : Bool :=
  match v with
  | .str t => t == s
  | _ => false

/-- The submitter `handleCloseCampaign` of the source up to the `openContractCall`
invocation; `confirmAnswer` is the answer of the `confirm` dialog. -/
def handleCloseCampaign (user : Option UserData) (campaigns : List Campaign)
    (campaignId : Nat) (confirmAnswer : Bool) : CloseResult :=
  match user with
  | none => CloseResult.noWallet
  | some u =>
    match campaigns.find? (fun c => c.id == campaignId) with
    | none => CloseResult.notFound
    | some campaign =>
      if !(jsStrictEqStr campaign.owner u.address) then CloseResult.notOwner
      else
        let goalReached := JSNum.geB campaign.total campaign.goal
        let functionName := if goalReached then "withdraw-funds" else "finalize-failure"
        if !confirmAnswer then CloseResult.cancelled
        else
          let isWithdraw := functionName == "withdraw-funds"
          let withdrawAmountMicro :=
            if isWithdraw then jsMax0 (jsRound (campaign.total.mul (JSNum.val 1000000)))
            else JSNum.val 0
          let postConditions : List PostCondition :=
            if isWithdraw then
              [{ contractAddress := CONTRACT_ADDRESS
                 contractName := CONTRACT_NAME
                 conditionCode := "LessEqual"
                 amount := jsNumToString withdrawAmountMicro }]
            else []
          CloseResult.submitted functionName campaignId postConditions
            (if isWithdraw then some "Allow" else none)

/-- The modal notice shown for each outcome of `handleCloseCampaign`. -/
def closeAlert : CloseResult → Option String
  | CloseResult.noWallet => some "Please connect your wallet first"
  | CloseResult.notFound => none
  | CloseResult.notOwner => some "Only the campaign owner can finalize this campaign"
  | CloseResult.cancelled => none
  | CloseResult.submitted _ _ _ _ => none

/-- Number of network submissions performed for an outcome: only the
`openContractCall` path reaches the network. -/
def networkCalls : CloseResult → Nat
  | CloseResult.submitted _ _ _ _ => 1
  | _ => 0

/-- One response of the transaction-status endpoint: a status string, or a
transport error of the fetch itself. -/
inductive PollResp where
  | status (s : String) : PollResp
  | transportError : PollResp

/-- Terminal state of the polling promise of `waitForTransaction`. -/
inductive WaitOutcome where
  | resolved (s : String) : WaitOutcome
  | rejectedTimeout : WaitOutcome
  | rejectedError : WaitOutcome
deriving DecidableEq

/-- The interval body of `waitForTransaction`. `poll t` is the response of
the t-th status check (t counted from 0); `budget` is `maxRetries - retries`
(15 initially, the timeout test `retries >= maxRetries` is `budget = 0`);
the returned number is how many status checks ran. Every tick first fetches
and tests for a terminal status; only a non-terminal response consults the
retry budget. -/
def waitLoop (poll : Nat → PollResp) : Nat → Nat → WaitOutcome × Nat
  | 0, tick =>
    match poll tick with
    | PollResp.transportError => (WaitOutcome.rejectedError, tick + 1)
    | PollResp.status s =>
      if s == "success" || s == "failed" then (WaitOutcome.resolved s, tick + 1)
      else (WaitOutcome.rejectedTimeout, tick + 1)
  | b + 1, tick =>
    match poll tick with
    | PollResp.transportError => (WaitOutcome.rejectedError, tick + 1)
    | PollResp.status s =>
      if s == "success" || s == "failed" then (WaitOutcome.resolved s, tick + 1)
      else waitLoop poll b (tick + 1)

/-- The poller `waitForTransaction` of the source: `maxRetries = 15`, counter from 0. -/
def waitForTransaction (poll : Nat → PollResp) : WaitOutcome × Nat :=
  waitLoop poll 15 0

/-- A non-terminal status response (neither success nor failed, no error). -/
def pendingB : PollResp → Bool
  | PollResp.status s => !(s == "success" || s == "failed")
  | PollResp.transportError => false

/-- A terminal status response. -/
def terminalB : PollResp → Bool
  | PollResp.status s => s == "success" || s == "failed"
  | PollResp.transportError => false

/-- Alert texts of the `onFinish` callback of `handleCloseCampaign`. -/
def txBroadcastMsg : String := "Transaction broadcasted! Waiting for confirmation..."

/-- Success alert of the `onFinish` callback. -/
def txSuccessMsg : String := "Campaign finalized successfully!"

/-- Failure alert of the `onFinish` callback. -/
def txFailMsg : String := "Transaction confirmation failed. Please check the explorer."

/-- The `onFinish` callback after broadcast: awaits `waitForTransaction`;
on resolution it runs one full `fetchAllData` refresh and alerts success,
on rejection (timeout or transport error) it logs, alerts failure and runs
no refresh. Returns the number of refreshes and the alerts shown in order. -/
def onFinishFlow (poll : Nat → PollResp) : Nat × List String :=
  match waitForTransaction poll with
  | (WaitOutcome.resolved _, _) => (1, [txBroadcastMsg, txSuccessMsg])
  | (WaitOutcome.rejectedTimeout, _) => (0, [txBroadcastMsg, txFailMsg])
  | (WaitOutcome.rejectedError, _) => (0, [txBroadcastMsg, txFailMsg])

/-- The `GlobalStats` record of the page. -/
structure GlobalStats where
  totalRaised : JSNum
  totalContributors : JSNum
  activeCampaigns : JSNum
  totalCampaigns : JSNum
deriving DecidableEq

/-- The displayed process state touched by `fetchAllData`. -/
structure DashState where
  campaigns : List Campaign
  globalStats : GlobalStats
  loading : Bool

/-- Console events emitted by `fetchAllData`. -/
inductive LogEvent where
  | fetchError : LogEvent
  | decodeWarn (idx : Nat) : LogEvent
deriving DecidableEq

/-- Environment of one `fetchAllData` run: the joined result of the four
stats reads (a transport or decode failure there rejects the whole batch),
and per-index campaign responses — the outer `Except` is the transport
result of the read, the inner one the result of `cvToJSON` on it. -/
structure FetchEnv where
  stats : Except Unit (JVal × JVal × JVal × JVal)
  campaignFetch : Nat → Except Unit (Except Unit JVal)

/-- The read `Number(cvToJSON(x).value)`: a plain (unguarded) field read, so a
missing field coerces `undefined` to NaN. -/
def statVal (j : JVal) : JSNum :=
  match getField j "value" with
  | none => JSNum.nan
  | some v => jsToNumber v

/-- Iteration count of `for (let i = 0; i < count; i++)` for a JavaScript
loop bound: NaN and non-positive bounds run zero iterations. -/
def loopCount : JSNum → Nat
  | JSNum.nan => 0
  | JSNum.val q => if q ≤ 0 then 0 else (⌈q⌉).toNat

/-- The join `Promise.all` over indexed fallible fetches: any rejection rejects the
join, otherwise the responses are collected in order. -/
def batchFetch (f : Nat → Except Unit (Except Unit JVal)) :
    List Nat → Except Unit (List (Except Unit JVal))
  | [] => Except.ok []
  | i :: is =>
    match f i with
    | Except.error e => Except.error e
    | Except.ok v =>
      match batchFetch f is with
      | Except.error e => Except.error e
      | Except.ok vs => Except.ok (v :: vs)

/-- The `setGlobalStats` payload built from the four stats responses; only
the raised total is scaled from micro-units. -/
def mkGlobalStats (totalSTX totalContributors activeCampaigns campaignCount : JVal) :
    GlobalStats :=
  { totalRaised := (statVal totalSTX).divConst 1000000
    totalContributors := statVal totalContributors
    activeCampaigns := statVal activeCampaigns
    totalCampaigns := statVal campaignCount }

/-- One iteration of the per-campaign map of `fetchAllData`: a `cvToJSON`
failure is caught and yields `null` (here `none`), otherwise the item is
decoded with its index. -/
def decodeCampaignItem (p : Nat × Except Unit JVal) : Option Campaign :=
  match p.2 with
  | Except.ok j => some (parseCampaign (some j) p.1)
  | Except.error _ => none

/-- The map-then-filter of `fetchAllData` over the campaign responses. -/
def processCampaignResults (rs : List (Except Unit JVal)) : List Campaign :=
  (rs.enum.map decodeCampaignItem).reduceOption

/-- The `console.warn` event of one per-campaign map iteration: emitted
exactly when the item is dropped. -/
def warnItem (p : Nat × Except Unit JVal) : Option LogEvent :=
  match decodeCampaignItem p with
  | none => some (LogEvent.decodeWarn p.1)
  | some _ => none

/-- The `console.warn` events of the per-campaign map: one per dropped item. -/
def decodeWarnings (rs : List (Except Unit JVal)) : List LogEvent :=
  rs.enum.filterMap warnItem

/-- Whether a per-campaign response decoded successfully. -/
def isOkB (r : Except Unit JVal) : Bool :=
  match r with
  | Except.ok _ => true
  | Except.error _ => false

/-- The refresh `fetchAllData` of the source as a state transformer. The loading flag is
set at entry and cleared in the `finally`, so the committed state always has
`loading := false`; a stats failure leaves both displayed pieces untouched;
a campaign-batch failure happens after `setGlobalStats` already committed
the fresh stats; a successful batch commits stats and decoded campaigns. -/
def fetchAllData (env : FetchEnv) (st : DashState) : DashState × List LogEvent :=
  match env.stats with
  | Except.error _ => ({ st with loading := false }, [LogEvent.fetchError])
  | Except.ok (totalSTX, totalContributors, activeCampaigns, campaignCount) =>
    let gs := mkGlobalStats totalSTX totalContributors activeCampaigns campaignCount
    let count := loopCount (statVal campaignCount)
    match batchFetch env.campaignFetch (List.range count) with
    | Except.error _ => ({ st with globalStats := gs, loading := false }, [LogEvent.fetchError])
    | Except.ok rs =>
      ({ campaigns := processCampaignResults rs, globalStats := gs, loading := false },
        decodeWarnings rs)

/-! ## Helper lemmas -/

theorem optChainE_eq (x : JSlot) (k : String) :
    optChainE x k = Except.ok (optChain x k) := by
  cases x with
  | none => rfl
  | some v => cases v <;> rfl

theorem bindE_ok (v : JSlot) (f : JSlot → Except String Campaign) :
    bindE (Except.ok v) f = f v := rfl

theorem getPropE_nullish (x : JSlot) (l : List (String × JVal)) (k : String) :
    getPropE (some (nullish x (JVal.obj l))) k
      = Except.ok (getField (nullish x (JVal.obj l)) k) := by
  cases x with
  | none => rfl
  | some v => cases v <;> rfl

/-! ## C10 -/

/-- C10: the campaign decode is total: for every JavaScript input value
whatsoever (`undefined`, `null`, or arbitrarily shaped JSON), the strict
evaluation of `parseCampaign` never reaches a throwing property access and
returns exactly the decoded `Campaign` record. -/
theorem c10_parse_total (json : JSlot) (id : Nat) :
    parseCampaignE json id = Except.ok (parseCampaign json id) := by
  simp only [parseCampaignE, optChainE_eq, getPropE_nullish, bindE_ok, parseCampaign, dOf]

/-! ## C2 -/

/-- C2 counterexample: decoding a raw structure with every field absent
yields a title that is the literal placeholder `Campaign $\x7bid\x7d`, not
the empty string, although the title field is absent. -/
theorem c2_missing_title_counterexample :
    getField (dOf (some (JVal.obj []))) "title" = none
      ∧ (parseCampaign (some (JVal.obj [])) 7).title = "Campaign $\x7bid\x7d"
      ∧ (parseCampaign (some (JVal.obj [])) 7).title ≠ "" := by
  refine ⟨rfl, rfl, by decide⟩

/-- C2 amended: for every raw campaign structure, the decode returns a
Campaign record without raising in which every missing numeric field is 0,
every missing boolean field is false, and a missing owner is the empty
string; a missing title or description defaults to the literal placeholder
string `Campaign $\x7bid\x7d` rather than the empty string. -/
theorem c2_missing_field_defaults_amended (json : JSlot) (id : Nat) :
    (getField (dOf json) "goal" = none → (parseCampaign json id).goal = JSNum.val 0)
    ∧ (getField (dOf json) "total" = none → (parseCampaign json id).total = JSNum.val 0)
    ∧ (getField (dOf json) "deadline" = none → (parseCampaign json id).deadline = JSNum.val 0)
    ∧ (getField (dOf json) "active" = none → (parseCampaign json id).active = false)
    ∧ (getField (dOf json) "successful" = none → (parseCampaign json id).successful = false)
    ∧ (getField (dOf json) "withdrawn" = none → (parseCampaign json id).withdrawn = false)
    ∧ (getField (dOf json) "finalized" = none → (parseCampaign json id).finalized = false)
    ∧ (getField (dOf json) "owner" = none → (parseCampaign json id).owner = JVal.str "")
    ∧ (getField (dOf json) "title" = none →
        (parseCampaign json id).title = "Campaign $\x7bid\x7d")
    ∧ (getField (dOf json) "description" = none →
        (parseCampaign json id).description = "Campaign $\x7bid\x7d") := by
  refine ⟨?_, ?_, ?_, ?_, ?_, ?_, ?_, ?_, ?_, ?_⟩ <;>
    · intro h
      simp [parseCampaign, h, jNum, jStr, jBool, jsOrStr, jsOrVal, optChain, nullish,
        jsToNumber, jsToString, jsTruthy, JSNum.divConst]

/-- C2 witness: the amended defaults at a concrete raw structure with every
field absent. -/
theorem c2_amended_witness :
    (parseCampaign (some (JVal.obj [])) 7).goal = JSNum.val 0
    ∧ (parseCampaign (some (JVal.obj [])) 7).withdrawn = false
    ∧ (parseCampaign (some (JVal.obj [])) 7).owner = JVal.str ""
    ∧ (parseCampaign (some (JVal.obj [])) 7).description = "Campaign $\x7bid\x7d" := by
  have h := c2_missing_field_defaults_amended (some (JVal.obj [])) 7
  exact ⟨h.1 rfl, h.2.2.2.2.2.1 rfl, h.2.2.2.2.2.2.2.1 rfl, h.2.2.2.2.2.2.2.2.2 rfl⟩

/-! ## C8 -/

/-- C8 counterexample: the decode does not enforce the invariant — a raw
structure whose active and withdrawn fields are both true decodes to a
Campaign with `withdrawn = true` and `active = true`. -/
theorem c8_invariant_counterexample :
    (parseCampaign (some (JVal.obj [("value", JVal.obj [("value", JVal.obj
        [("active", JVal.obj [("value", JVal.bool true)]),
         ("withdrawn", JVal.obj [("value", JVal.bool true)])])])])) 0).withdrawn = true
    ∧ (parseCampaign (some (JVal.obj [("value", JVal.obj [("value", JVal.obj
        [("active", JVal.obj [("value", JVal.bool true)]),
         ("withdrawn", JVal.obj [("value", JVal.bool true)])])])])) 0).active = true := by
  exact ⟨rfl, rfl⟩

/-- C8 amended: the decode copies the two flags unchanged, so every campaign
decoded from a raw structure that itself satisfies the invariant (withdrawn
implies not active, as the contract maintains on-chain) satisfies
`active = false` whenever `withdrawn = true`; the decoder does not enforce
the invariant on other inputs. -/
theorem c8_invariant_preserved_amended (json : JSlot) (id : Nat)
    (hinv : jBool (getField (dOf json) "withdrawn") = true →
      jBool (getField (dOf json) "active") = false) :
    (parseCampaign json id).withdrawn = true → (parseCampaign json id).active = false := by
  simpa only [parseCampaign] using hinv

/-- C8 witness: the amended statement applied to a concrete raw structure
satisfying the invariant. -/
theorem c8_amended_witness :
    (parseCampaign (some (JVal.obj [("value", JVal.obj [("value", JVal.obj
        [("withdrawn", JVal.obj [("value", JVal.bool true)])])])])) 0).withdrawn = true
    ∧ (parseCampaign (some (JVal.obj [("value", JVal.obj [("value", JVal.obj
        [("withdrawn", JVal.obj [("value", JVal.bool true)])])])])) 0).active = false := by
  exact ⟨rfl, c8_invariant_preserved_amended _ 0 (fun _ => rfl) rfl⟩

/-! ## C9 -/

theorem processResults_length_from (rs : List (Except Unit JVal)) :
    ∀ n, (((rs.enumFrom n).map decodeCampaignItem).reduceOption).length
      = rs.countP isOkB := by
  induction rs with
  | nil => intro n; rfl
  | cons r rt ih =>
    intro n
    cases r with
    | ok j =>
      simp only [List.enumFrom, List.map_cons, List.countP_cons]
      rw [show decodeCampaignItem (n, Except.ok j) = some (parseCampaign (some j) n) from rfl,
        List.reduceOption_cons_of_some]
      simp [ih (n + 1), isOkB]
    | error e =>
      simp only [List.enumFrom, List.map_cons, List.countP_cons]
      rw [show decodeCampaignItem (n, Except.error e) = none from rfl,
        List.reduceOption_cons_of_none]
      simp [ih (n + 1), isOkB]

theorem decodeWarnings_length_from (rs : List (Except Unit JVal)) :
    ∀ n, ((rs.enumFrom n).filterMap warnItem).length
      = rs.countP fun r => !(isOkB r) := by
  induction rs with
  | nil => intro n; rfl
  | cons r rt ih =>
    intro n
    cases r with
    | ok j =>
      simp only [List.enumFrom, List.filterMap_cons, List.countP_cons]
      rw [show warnItem (n, Except.ok j) = none from rfl]
      simp [ih (n + 1), isOkB]
    | error e =>
      simp only [List.enumFrom, List.filterMap_cons, List.countP_cons]
      rw [show warnItem (n, Except.error e) = some (LogEvent.decodeWarn n) from rfl]
      simp [ih (n + 1), isOkB]

/-- C9: over any batch of per-campaign responses, every successfully decoded
campaign (index i responded ok) appears in the aggregated result, the result
keeps exactly the successfully decoded campaigns (one per ok response), and
one warning is logged per failed item — a single decode failure is dropped
without aborting the aggregate. -/
theorem c9_partial_decode_isolation (rs : List (Except Unit JVal)) :
    (∀ i j, rs[i]? = some (Except.ok j) →
        parseCampaign (some j) i ∈ processCampaignResults rs)
    ∧ (processCampaignResults rs).length = rs.countP isOkB
    ∧ (decodeWarnings rs).length = rs.countP fun r => !(isOkB r) := by
  refine ⟨?_, ?_, ?_⟩
  · intro i j h
    rw [processCampaignResults, List.reduceOption_mem_iff]
    refine List.mem_map.mpr ⟨(i, Except.ok j), ?_, rfl⟩
    exact List.mk_mem_enum_iff_getElem?.mpr h
  · rw [processCampaignResults, List.enum]
    exact processResults_length_from rs 0
  · rw [decodeWarnings, List.enum]
    exact decodeWarnings_length_from rs 0

/-- C9 witness: in a concrete batch whose middle item fails to decode, the
two good campaigns survive, the failed one is dropped, and one warning is
logged. -/
theorem c9_witness :
    parseCampaign (some (JVal.obj [])) 0
        ∈ processCampaignResults [Except.ok (JVal.obj []), Except.error (), Except.ok JVal.null]
    ∧ parseCampaign (some JVal.null) 2
        ∈ processCampaignResults [Except.ok (JVal.obj []), Except.error (), Except.ok JVal.null]
    ∧ (processCampaignResults
        [Except.ok (JVal.obj []), Except.error (), Except.ok JVal.null]).length = 2
    ∧ (decodeWarnings
        [Except.ok (JVal.obj []), Except.error (), Except.ok JVal.null]).length = 1 := by
  have h := c9_partial_decode_isolation
    [Except.ok (JVal.obj []), Except.error (), Except.ok JVal.null]
  refine ⟨h.1 0 _ rfl, h.1 2 _ rfl, ?_, ?_⟩
  · rw [h.2.1]; rfl
  · rw [h.2.2]; rfl

/-! ## Polling helper lemmas -/

theorem waitLoop_checks_le (poll : Nat → PollResp) :
    ∀ budget tick, (waitLoop poll budget tick).2 ≤ tick + budget + 1 := by
  intro budget
  induction budget with
  | zero =>
    intro tick
    simp only [waitLoop]
    cases hpt : poll tick with
    | transportError => simp
    | status s =>
      by_cases hs : (s == "success" || s == "failed") = true
      · simp [hs]
      · simp [hs]
  | succ b ih =>
    intro tick
    simp only [waitLoop]
    cases hpt : poll tick with
    | transportError => simp
    | status s =>
      by_cases hs : (s == "success" || s == "failed") = true
      · simp [hs]
      · simp [hs]
        have := ih (tick + 1)
        omega

theorem waitLoop_pending_all (poll : Nat → PollResp)
    (hp : ∀ t, pendingB (poll t) = true) :
    ∀ budget tick, waitLoop poll budget tick = (WaitOutcome.rejectedTimeout, tick + budget + 1) := by
  intro budget
  induction budget with
  | zero =>
    intro tick
    have h := hp tick
    simp only [waitLoop]
    cases hpt : poll tick with
    | transportError => rw [hpt] at h; simp [pendingB] at h
    | status s =>
      rw [hpt] at h
      have hs : (s == "success" || s == "failed") = false := by simpa [pendingB] using h
      simp [hs]
  | succ b ih =>
    intro tick
    have h := hp tick
    simp only [waitLoop]
    cases hpt : poll tick with
    | transportError => rw [hpt] at h; simp [pendingB] at h
    | status s =>
      rw [hpt] at h
      have hs : (s == "success" || s == "failed") = false := by simpa [pendingB] using h
      simp only [hs, Bool.false_eq_true, if_false, ih (tick + 1), Prod.mk.injEq]
      exact ⟨trivial, by omega⟩

theorem waitLoop_terminal_stop (poll : Nat → PollResp) :
    ∀ k budget tick, k ≤ budget →
      (∀ j, j < k → pendingB (poll (tick + j)) = true) →
      terminalB (poll (tick + k)) = true →
      ∃ s, poll (tick + k) = PollResp.status s
        ∧ waitLoop poll budget tick = (WaitOutcome.resolved s, tick + k + 1) := by
  intro k
  induction k with
  | zero =>
    intro budget tick _ _ hterm
    simp only [Nat.add_zero] at hterm ⊢
    cases hpt : poll tick with
    | transportError => rw [hpt] at hterm; simp [terminalB] at hterm
    | status s =>
      rw [hpt] at hterm
      have hs : (s == "success" || s == "failed") = true := by simpa [terminalB] using hterm
      refine ⟨s, rfl, ?_⟩
      cases budget with
      | zero => simp [waitLoop, hpt, hs]
      | succ b => simp [waitLoop, hpt, hs]
  | succ k ih =>
    intro budget tick hkb hpend hterm
    have h0t : pendingB (poll tick) = true := by simpa using hpend 0 (Nat.succ_pos k)
    cases hpt : poll tick with
    | transportError => rw [hpt] at h0t; simp [pendingB] at h0t
    | status s =>
      rw [hpt] at h0t
      have hs : (s == "success" || s == "failed") = false := by simpa [pendingB] using h0t
      obtain ⟨b, rfl⟩ : ∃ b, budget = b + 1 := ⟨budget - 1, by omega⟩
      have hpend2 : ∀ j, j < k → pendingB (poll (tick + 1 + j)) = true := by
        intro j hj
        have h2 := hpend (j + 1) (by omega)
        rwa [show tick + (j + 1) = tick + 1 + j from by omega] at h2
      have hterm2 : terminalB (poll (tick + 1 + k)) = true := by
        rwa [show tick + (k + 1) = tick + 1 + k from by omega] at hterm
      obtain ⟨s2, hps2, hwl⟩ := ih b (tick + 1) (by omega) hpend2 hterm2
      refine ⟨s2, ?_, ?_⟩
      · rw [show tick + (k + 1) = tick + 1 + k from by omega]
        exact hps2
      · simp only [waitLoop, hpt, hs, Bool.false_eq_true, if_false, hwl, Prod.mk.injEq]
        exact ⟨trivial, by omega⟩

/-! ## C1 -/

/-- C1 counterexample: a status endpoint whose first response is the
terminal status "failed" resolves the wait, and the submitter then runs one
full refresh and shows the success notice — not a failure notice and not
zero refreshes. -/
theorem c1_failed_status_refresh_counterexample :
    waitForTransaction (fun _ => PollResp.status "failed") = (WaitOutcome.resolved "failed", 1)
    ∧ onFinishFlow (fun _ => PollResp.status "failed") = (1, [txBroadcastMsg, txSuccessMsg])
    ∧ (1 : Nat) ≠ 0 :=
  ⟨rfl, rfl, by decide⟩

/-- C1 amended: polling stops immediately at the first terminal status
("success" or "failed"); when the poll times out or the status lookup fails
with a transport error, the submitter surfaces the user-visible failure
notice and triggers no refresh; a refresh (one `fetchAllData`, with the
success notice) is triggered whenever polling resolves on a terminal status
— on "failed" just as on "success" — not only on a successful transaction. -/
theorem c1_polling_terminal_amended :
    (∀ (poll : Nat → PollResp) (k : Nat), k ≤ 15 →
      (∀ j, j < k → pendingB (poll j) = true) → terminalB (poll k) = true →
      ∃ s, poll k = PollResp.status s
        ∧ waitForTransaction poll = (WaitOutcome.resolved s, k + 1))
    ∧ (∀ (poll : Nat → PollResp) (s : String) (n : Nat),
        waitForTransaction poll = (WaitOutcome.resolved s, n) →
        onFinishFlow poll = (1, [txBroadcastMsg, txSuccessMsg]))
    ∧ (∀ (poll : Nat → PollResp) (n : Nat),
        waitForTransaction poll = (WaitOutcome.rejectedTimeout, n)
          ∨ waitForTransaction poll = (WaitOutcome.rejectedError, n) →
        onFinishFlow poll = (0, [txBroadcastMsg, txFailMsg])) := by
  refine ⟨?_, ?_, ?_⟩
  · intro poll k hk hpend hterm
    obtain ⟨s, hps, hwl⟩ := waitLoop_terminal_stop poll k 15 0 hk
      (fun j hj => by simpa using hpend j hj) (by simpa using hterm)
    exact ⟨s, by simpa using hps, by simpa [waitForTransaction] using hwl⟩
  · intro poll s n h
    simp only [onFinishFlow, h]
  · intro poll n h
    rcases h with h | h <;> simp only [onFinishFlow, h]

/-- C1 witness: a poll that is pending twice and terminal on the third check
stops at check 3 and triggers exactly one refresh with the success notice. -/
theorem c1_amended_witness :
    waitForTransaction
        (fun t => if t < 2 then PollResp.status "pending" else PollResp.status "success")
      = (WaitOutcome.resolved "success", 3)
    ∧ onFinishFlow
        (fun t => if t < 2 then PollResp.status "pending" else PollResp.status "success")
      = (1, [txBroadcastMsg, txSuccessMsg]) := by
  obtain ⟨s, hps, hwl⟩ := c1_polling_terminal_amended.1
    (fun t => if t < 2 then PollResp.status "pending" else PollResp.status "success")
    2 (by decide) (by decide) (by decide)
  norm_num at hps
  cases hps
  exact ⟨hwl, c1_polling_terminal_amended.2.1 _ _ _ hwl⟩

/-! ## C3 -/

/-- C3 counterexample: a status endpoint that never returns a terminal
status ends in the timed-out outcome only after 16 status checks, not 15. -/
theorem c3_poll_timeout_counterexample :
    waitForTransaction (fun _ => PollResp.status "pending")
      = (WaitOutcome.rejectedTimeout, 16)
    ∧ (16 : Nat) ≠ 15 :=
  ⟨rfl, by decide⟩

/-- C3 amended: the transaction-status poll performs at most 16 status
checks (the first check plus `maxRetries = 15` retries): a status endpoint
that never returns a terminal status ends in the timed-out outcome after
exactly 16 checks, and in that case zero refreshes are triggered. -/
theorem c3_poll_attempt_bound_amended :
    (∀ poll : Nat → PollResp, (waitForTransaction poll).2 ≤ 16)
    ∧ (∀ poll : Nat → PollResp, (∀ t, pendingB (poll t) = true) →
        waitForTransaction poll = (WaitOutcome.rejectedTimeout, 16)
        ∧ onFinishFlow poll = (0, [txBroadcastMsg, txFailMsg])) := by
  constructor
  · intro poll
    have h := waitLoop_checks_le poll 15 0
    have h2 : (waitForTransaction poll).2 = (waitLoop poll 15 0).2 := rfl
    omega
  · intro poll hp
    have hw : waitForTransaction poll = (WaitOutcome.rejectedTimeout, 16) := by
      simpa [waitForTransaction] using waitLoop_pending_all poll hp 15 0
    exact ⟨hw, by simp only [onFinishFlow, hw]⟩

/-- C3 witness: the amended bound at the concrete always-pending endpoint. -/
theorem c3_amended_witness :
    waitForTransaction (fun _ => PollResp.status "pending")
      = (WaitOutcome.rejectedTimeout, 16)
    ∧ (onFinishFlow (fun _ => PollResp.status "pending")).1 = 0 := by
  obtain ⟨h1, h2⟩ := c3_poll_attempt_bound_amended.2
    (fun _ => PollResp.status "pending") (fun t => rfl)
  exact ⟨h1, by rw [h2]⟩

/-! ## C4 -/

theorem jsNumToString_intCast (n : ℤ) :
    jsNumToString (JSNum.val (n : ℚ)) = toString n := by
  simp [jsNumToString, Rat.den_intCast, Rat.num_intCast]

theorem withdrawAmount_eval (t : ℚ) (ht0 : 0 ≤ t) :
    jsMax0 (jsRound ((JSNum.val t).mul (JSNum.val 1000000)))
      = JSNum.val ((⌊t * 1000000 + 1/2⌋ : ℤ) : ℚ) := by
  simp only [JSNum.mul, jsRound, jsMax0]
  congr 1
  rw [max_eq_right]
  exact_mod_cast Int.floor_nonneg.mpr (by positivity)

/-- C4: once the submission reaches the build step, the chosen contract
function is a pure function of whether total raised is at least the goal:
when the goal is met the withdraw path is chosen and a single spending
guarantee is attached capping the contract transfer at (total raised times
1,000,000) rounded to the nearest integer, as a transfer-at-most
(`LessEqual`) condition; when the goal is not met the finalize-failure path
is chosen and no guarantee is attached. -/
theorem c4_function_choice_and_postcondition
    (campaigns : List Campaign) (cid : Nat) (u : UserData) (c : Campaign)
    (hf : campaigns.find? (fun x => x.id == cid) = some c)
    (hown : jsStrictEqStr c.owner u.address = true)
    (t : ℚ) (ht : c.total = JSNum.val t) (ht0 : 0 ≤ t) :
    (JSNum.geB c.total c.goal = true →
      handleCloseCampaign (some u) campaigns cid true
        = CloseResult.submitted "withdraw-funds" cid
            [{ contractAddress := CONTRACT_ADDRESS
               contractName := CONTRACT_NAME
               conditionCode := "LessEqual"
               amount := toString (⌊t * 1000000 + 1/2⌋ : ℤ) }] (some "Allow"))
    ∧ (JSNum.geB c.total c.goal = false →
      handleCloseCampaign (some u) campaigns cid true
        = CloseResult.submitted "finalize-failure" cid [] none) := by
  constructor
  · intro hge
    rw [ht] at hge
    simp only [handleCloseCampaign, hf, hown, hge, ht, Bool.not_true, Bool.false_eq_true,
      if_false, if_true, Bool.not_false]
    simp [hge, withdrawAmount_eval t ht0, jsNumToString_intCast]
  · intro hge
    simp only [handleCloseCampaign, hf, hown, hge, Bool.not_true, Bool.false_eq_true,
      if_false, if_true, Bool.not_false]
    simp

/-- C4 witness: the spec examples — total 150 and goal 100 selects the
withdraw path with a cap of 150,000,000 micro-units; total 50 and goal 100
selects the finalize-failure path with no guarantee. -/
theorem c4_witness :
    handleCloseCampaign (some ⟨"SPOWNER"⟩)
      [{ id := 0, title := "t", description := "d", goal := JSNum.val 100,
         total := JSNum.val 150, deadline := JSNum.val 0, owner := JVal.str "SPOWNER",
         active := true, successful := true, withdrawn := false, finalized := false }]
      0 true
      = CloseResult.submitted "withdraw-funds" 0
          [{ contractAddress := CONTRACT_ADDRESS, contractName := CONTRACT_NAME,
             conditionCode := "LessEqual", amount := "150000000" }] (some "Allow")
    ∧ handleCloseCampaign (some ⟨"SPOWNER"⟩)
      [{ id := 0, title := "t", description := "d", goal := JSNum.val 100,
         total := JSNum.val 50, deadline := JSNum.val 0, owner := JVal.str "SPOWNER",
         active := true, successful := false, withdrawn := false, finalized := false }]
      0 true
      = CloseResult.submitted "finalize-failure" 0 [] none := by
  constructor
  · have h := (c4_function_choice_and_postcondition
      [{ id := 0, title := "t", description := "d", goal := JSNum.val 100,
         total := JSNum.val 150, deadline := JSNum.val 0, owner := JVal.str "SPOWNER",
         active := true, successful := true, withdrawn := false, finalized := false }]
      0 ⟨"SPOWNER"⟩ _ rfl rfl 150 rfl (by norm_num)).1 (by norm_num [JSNum.geB])
    rw [h, show (⌊(150 : ℚ) * 1000000 + 1/2⌋ : ℤ) = 150000000 from
      Int.floor_eq_iff.mpr (by constructor <;> norm_num)]
    rfl
  · exact (c4_function_choice_and_postcondition
      [{ id := 0, title := "t", description := "d", goal := JSNum.val 100,
         total := JSNum.val 50, deadline := JSNum.val 0, owner := JVal.str "SPOWNER",
         active := true, successful := false, withdrawn := false, finalized := false }]
      0 ⟨"SPOWNER"⟩ _ rfl rfl 50 rfl (by norm_num)).2 (by norm_num [JSNum.geB])

/-! ## C5 -/

/-- C5: a submission attempt with no session is rejected with the
connect-wallet notice, and one whose session address is not exactly
(case-sensitive string equality) the campaign owner value is rejected with
the authorization notice; in both cases no contract call reaches the
network and nothing is built. -/
theorem c5_auth_guard (campaigns : List Campaign) (cid : Nat) (ans : Bool) :
    (handleCloseCampaign none campaigns cid ans = CloseResult.noWallet
      ∧ networkCalls (handleCloseCampaign none campaigns cid ans) = 0
      ∧ closeAlert (handleCloseCampaign none campaigns cid ans)
          = some "Please connect your wallet first")
    ∧ (∀ (u : UserData) (c : Campaign),
        campaigns.find? (fun x => x.id == cid) = some c →
        jsStrictEqStr c.owner u.address = false →
        handleCloseCampaign (some u) campaigns cid ans = CloseResult.notOwner
        ∧ networkCalls (handleCloseCampaign (some u) campaigns cid ans) = 0
        ∧ closeAlert (handleCloseCampaign (some u) campaigns cid ans)
            = some "Only the campaign owner can finalize this campaign") := by
  constructor
  · exact ⟨rfl, rfl, rfl⟩
  · intro u c hf hown
    have h : handleCloseCampaign (some u) campaigns cid ans = CloseResult.notOwner := by
      simp [handleCloseCampaign, hf, hown]
    refine ⟨h, ?_, ?_⟩ <;> rw [h] <;> rfl

/-- C5 witness: the guard at concrete inputs — an absent session, and a
session address that differs from the campaign owner. -/
theorem c5_witness :
    handleCloseCampaign none [] 0 true = CloseResult.noWallet
    ∧ handleCloseCampaign (some ⟨"SPALICE"⟩)
        [{ id := 0, title := "t", description := "d", goal := JSNum.val 100,
           total := JSNum.val 150, deadline := JSNum.val 0, owner := JVal.str "SPBOB",
           active := true, successful := false, withdrawn := false, finalized := false }]
        0 true = CloseResult.notOwner
    ∧ networkCalls (handleCloseCampaign (some ⟨"SPALICE"⟩)
        [{ id := 0, title := "t", description := "d", goal := JSNum.val 100,
           total := JSNum.val 150, deadline := JSNum.val 0, owner := JVal.str "SPBOB",
           active := true, successful := false, withdrawn := false, finalized := false }]
        0 true) = 0 := by
  have h := (c5_auth_guard
    [{ id := 0, title := "t", description := "d", goal := JSNum.val 100,
       total := JSNum.val 150, deadline := JSNum.val 0, owner := JVal.str "SPBOB",
       active := true, successful := false, withdrawn := false, finalized := false }]
    0 true).2 ⟨"SPALICE"⟩ _ rfl rfl
  exact ⟨(c5_auth_guard [] 0 true).1.1, h.1, h.2.1⟩

/-! ## C6 -/

/-- C6: the Deadline Presenter is a pure function of the raw deadline, the
optional current height, the clock and the locale renderer, and satisfies:
any non-positive input yields "No deadline"; input 1,700,000,000 (above the
1,000,000,000 Unix magnitude threshold) yields the rendered absolute
date-time of that Unix second; input 500 with current height 400 yields the
estimated date-time (100 blocks at 10 minutes each from now) suffixed with
"(est, block 500)"; input 500 with current height 600 (already past) yields
"Block #500". -/
theorem c6_deadline_presenter (toLocale : JSNum → String) (now : JSNum) (cbh : Option JSNum) :
    (∀ q : ℚ, q ≤ 0 → formatDeadlineDisplay toLocale now (JSNum.val q) cbh = "No deadline")
    ∧ formatDeadlineDisplay toLocale now (JSNum.val 1700000000) cbh
        = toLocale (JSNum.val 1700000000000)
    ∧ formatDeadlineDisplay toLocale now (JSNum.val 500) (some (JSNum.val 400))
        = toLocale (now.add (JSNum.val 60000000)) ++ " (est, block 500)"
    ∧ formatDeadlineDisplay toLocale now (JSNum.val 500) (some (JSNum.val 600))
        = "Block #500" := by
  refine ⟨?_, ?_, ?_, ?_⟩
  · intro q hq
    simp [formatDeadlineDisplay, JSNum.leB, hq]
  · simp only [formatDeadlineDisplay, truthyNum, JSNum.leB, JSNum.gtB, JSNum.mul]
    norm_num
  · simp only [formatDeadlineDisplay, truthyNum, JSNum.leB, JSNum.gtB, JSNum.geB,
      JSNum.sub, JSNum.mul, jsNumToString]
    norm_num
    rfl
  · simp only [formatDeadlineDisplay, truthyNum, JSNum.leB, JSNum.gtB, JSNum.geB, jsNumToString]
    norm_num
    rfl

/-- C6 witness: the four presenter cases at a concrete locale renderer and a
concrete clock. -/
theorem c6_witness :
    formatDeadlineDisplay jsNumToString (JSNum.val 0) (JSNum.val 0) none = "No deadline"
    ∧ formatDeadlineDisplay jsNumToString (JSNum.val 0) (JSNum.val 1700000000) none
        = jsNumToString (JSNum.val 1700000000000)
    ∧ formatDeadlineDisplay jsNumToString (JSNum.val 0) (JSNum.val 500) (some (JSNum.val 400))
        = jsNumToString ((JSNum.val 0).add (JSNum.val 60000000)) ++ " (est, block 500)"
    ∧ formatDeadlineDisplay jsNumToString (JSNum.val 0) (JSNum.val 500) (some (JSNum.val 600))
        = "Block #500" := by
  have h := c6_deadline_presenter jsNumToString (JSNum.val 0) none
  exact ⟨h.1 0 le_rfl, h.2.1, h.2.2.1, h.2.2.2⟩

/-! ## C7 -/

/-- C7 counterexample: a refresh whose four stats reads succeed but whose
campaign batch fails with a transport error still logs a single fetch error
and leaves the campaign list untouched, yet it has already committed the
freshly fetched global stats — the displayed stats are no longer the prior
value 5 but the fetched 2, so not all prior displayed state is untouched. -/
theorem c7_stats_touched_counterexample :
    (fetchAllData
        ⟨Except.ok (JVal.obj [("value", JVal.num 0)], JVal.obj [("value", JVal.num 0)],
            JVal.obj [("value", JVal.num 0)], JVal.obj [("value", JVal.num 2)]),
          fun _ => Except.error ()⟩
        ⟨[], ⟨JSNum.val 5, JSNum.val 5, JSNum.val 5, JSNum.val 5⟩, false⟩).2
      = [LogEvent.fetchError]
    ∧ (fetchAllData
        ⟨Except.ok (JVal.obj [("value", JVal.num 0)], JVal.obj [("value", JVal.num 0)],
            JVal.obj [("value", JVal.num 0)], JVal.obj [("value", JVal.num 2)]),
          fun _ => Except.error ()⟩
        ⟨[], ⟨JSNum.val 5, JSNum.val 5, JSNum.val 5, JSNum.val 5⟩, false⟩).1.globalStats.totalCampaigns
      = JSNum.val 2
    ∧ (⟨[], ⟨JSNum.val 5, JSNum.val 5, JSNum.val 5, JSNum.val 5⟩, false⟩ :
        DashState).globalStats.totalCampaigns = JSNum.val 5
    ∧ JSNum.val 2 ≠ JSNum.val 5 := by
  refine ⟨by decide, by decide, rfl, ?_⟩
  intro h
  exact absurd (JSNum.val.inj h) (by norm_num)

/-- C7 amended: when the stats phase of a refresh fails, the failure is
logged once, there is no retry, and both the campaign list and the global
stats keep their prior values; when the stats phase succeeded and the
campaign batch fails with a transport error, the failure is logged once,
there is no retry, the campaign list keeps its prior value, but the freshly
fetched global stats have already been committed. -/
theorem c7_transport_failure_amended (env : FetchEnv) (st : DashState) :
    (∀ e : Unit, env.stats = Except.error e →
      fetchAllData env st = ({ st with loading := false }, [LogEvent.fetchError]))
    ∧ (∀ (a b c d : JVal) (e : Unit), env.stats = Except.ok (a, b, c, d) →
        batchFetch env.campaignFetch (List.range (loopCount (statVal d))) = Except.error e →
        (fetchAllData env st).1.campaigns = st.campaigns
        ∧ (fetchAllData env st).1.globalStats = mkGlobalStats a b c d
        ∧ (fetchAllData env st).2 = [LogEvent.fetchError]) := by
  constructor
  · intro e he
    simp [fetchAllData, he]
  · intro a b c d e hs hb
    refine ⟨?_, ?_, ?_⟩ <;> simp [fetchAllData, hs, hb]

/-- C7 witness: a refresh whose stats phase fails leaves the concrete prior
state untouched (only the loading flag is cleared) and logs one error. -/
theorem c7_amended_witness :
    fetchAllData ⟨Except.error (), fun _ => Except.error ()⟩
        ⟨[], ⟨JSNum.val 1, JSNum.val 1, JSNum.val 1, JSNum.val 1⟩, true⟩
      = (⟨[], ⟨JSNum.val 1, JSNum.val 1, JSNum.val 1, JSNum.val 1⟩, false⟩,
          [LogEvent.fetchError]) :=
  (c7_transport_failure_amended ⟨Except.error (), fun _ => Except.error ()⟩
    ⟨[], ⟨JSNum.val 1, JSNum.val 1, JSNum.val 1, JSNum.val 1⟩, true⟩).1 () rfl
